import Mathlib

/-!
Verification development for the Beatport module (`interface.py`) of a media
catalog client.  The Python source is shallowly embedded below: pure helpers
become Lean functions, network collaborators (the `BeatportApi` transport and
the `BeatportStream` engine, which are external to this repository) are passed
in as oracle values describing the outcome of each call, dictionaries become
structures with `Option` fields for optional keys, Python exceptions become
`Except`, and the best-effort filesystem effects of the download path are
tracked explicitly.
-/

/-! ## Quality tiers and codecs (utils.models enums used by the module) -/

/-- Quality tiers requested by the host (the `QualityEnum` members used by the
module). -/
inductive QualityEnum where
  | MINIMUM
  | LOW
  | MEDIUM
  | HIGH
  | LOSSLESS
  | HIFI
deriving DecidableEq

/-- Audio codecs relevant to this module (the `CodecEnum` members used). -/
inductive CodecEnum where
  | AAC
  | FLAC
deriving DecidableEq

/-- interface.py lines 61-68: the `quality_parse` dict built in `__init__`,
mapping each host quality tier to the service quality label. -/
def quality_parse : QualityEnum → String
  | .MINIMUM => "medium"
  | .LOW => "medium"
  | .MEDIUM => "medium"
  | .HIGH => "high"
  | .LOSSLESS => "lossless"
  | .HIFI => "lossless"

/-- interface.py lines 408-412: the `bitrate` dict of `get_track_info`. -/
def bitrate_table (q : String) : Option Nat :=
  List.lookup q [("lossless", 1411), ("high", 256), ("medium", 128)]

/-- The four quality-dependent fields of the `TrackInfo` record. -/
structure QualityFields where
  bitrate : Nat
  bit_depth : Option Nat
  sample_rate : ℚ
  codec : CodecEnum
deriving DecidableEq

/-- interface.py lines 407-429 (inside `get_track_info`): `quality =
self.quality_parse[quality_tier]`, `bitrate=bitrate[quality]` (the lookup never
misses because `quality_parse` only produces the three table keys),
`bit_depth=16 if quality == "lossless" else None`, `sample_rate=44.1`, and
`codec=CodecEnum.AAC if quality_tier not in {HIFI, LOSSLESS} else
CodecEnum.FLAC`. -/
def track_quality_fields (quality_tier : QualityEnum) : QualityFields :=
  let quality := quality_parse quality_tier
  { bitrate := (bitrate_table quality).getD 0
    bit_depth := if quality = "lossless" then some 16 else none
    sample_rate := (441 : ℚ) / 10
    codec :=
      if quality_tier = QualityEnum.HIFI ∨ quality_tier = QualityEnum.LOSSLESS then
        CodecEnum.FLAC
      else
        CodecEnum.AAC }

/-! ## Pagination aggregation

The paged `*Tracks` endpoints are modelled by the full server-side item list:
the declared `count` is its length and page `p` (1-indexed, page size 100)
holds items `(p-1)*100 .. p*100-1`.  Each aggregator returns the merged list
together with the total number of page fetches it issued (the initial call
plus one call per loop iteration). -/

/-- One page of a paged endpoint: `results` of `get_*_tracks(id, page=p)`. -/
def pageResults {α : Type} (items : List α) (page : Nat) : List α :=
  (items.drop ((page - 1) * 100)).take 100

/-- A non-chart playlist page wraps each track in an envelope that
`get_playlist_info` unwraps via `t.get('track')` (interface.py lines 265,
274-276). -/
structure PlaylistEntry (α : Type) where
  track : α
deriving DecidableEq

/-- interface.py lines 256-276 (`get_playlist_info`, user-playlist branch):
first page fetched unconditionally, then `for page in range(2, (total_tracks -
1) // 100 + 2)`, unwrapping the `track` envelope on every page.  (For
`total_tracks = 0` Python computes `range(2, -1 // 100 + 2) = range(2, 1)`,
empty, and truncated `Nat` subtraction yields the same empty range.) -/
def playlistFetchAll {α : Type} (entries : List (PlaylistEntry α)) : List α × Nat :=
  let playlist_tracks := (pageResults entries 1).map PlaylistEntry.track
  let total_tracks := entries.length
  let pages := List.range' 2 ((total_tracks - 1) / 100)
  (playlist_tracks ++ (pages.map (fun p => (pageResults entries p).map PlaylistEntry.track)).flatten,
   1 + pages.length)

/-- interface.py lines 253-272 (`get_playlist_info`, chart branch): same loop
bound `range(2, (total_tracks - 1) // 100 + 2)` but no envelope. -/
def chartFetchAll {α : Type} (items : List α) : List α × Nat :=
  let playlist_tracks := pageResults items 1
  let total_tracks := items.length
  let pages := List.range' 2 ((total_tracks - 1) / 100)
  (playlist_tracks ++ (pages.map (fun p => pageResults items p)).flatten, 1 + pages.length)

/-- interface.py lines 328-335 (`get_album_info`): first page fetched
unconditionally, then `for page in range(2, total_tracks // 100 + 2)`. -/
def albumFetchAll {α : Type} (items : List α) : List α × Nat :=
  let tracks := pageResults items 1
  let total_tracks := items.length
  let pages := List.range' 2 (total_tracks / 100)
  (tracks ++ (pages.map (fun p => pageResults items p)).flatten, 1 + pages.length)

/-- interface.py lines 307-314 (`get_artist_info`): same loop bound as the
album aggregation, `for page in range(2, total_tracks // 100 + 2)`. -/
def artistFetchAll {α : Type} (items : List α) : List α × Nat :=
  let artist_tracks := pageResults items 1
  let total_tracks := items.length
  let pages := List.range' 2 (total_tracks / 100)
  (artist_tracks ++ (pages.map (fun p => pageResults items p)).flatten, 1 + pages.length)

/-! ## Raw payload shapes (JSON dicts used by the metadata assembler) -/

/-- A `genre` / `sub_genre` object. -/
structure GenreObj where
  name : String
deriving DecidableEq

/-- A musical `key` object. -/
structure KeyObj where
  name : String
deriving DecidableEq

/-- A `label` object. -/
structure LabelObj where
  name : String
deriving DecidableEq

/-- An `image` object carrying the templated artwork URL. -/
structure ImageObj where
  dynamic_uri : String
deriving DecidableEq

/-- An artist object as it appears in `artists` lists. -/
structure ArtistObj where
  id : Nat
  name : String
deriving DecidableEq

/-- The `release` sub-object of a track payload.  The fields accessed without
a default (`release.id`, `release.label.name`, `release.image.dynamic_uri`,
interface.py lines 364, 397-398, 427) are mandatory. -/
structure ReleaseRef where
  id : Nat
  label : LabelObj
  image : ImageObj
deriving DecidableEq

/-- A raw track payload.  Keys read with `.get` become `Option` fields;
`is_available_for_streaming` is read with bracket access (line 402) and is
therefore mandatory.  Ids are modelled as `Nat` (the JSON ids are ints). -/
structure TrackData where
  id : Nat
  name : String
  mix_name : Option String
  artists : List ArtistObj
  release : ReleaseRef
  publish_date : Option String
  genre : GenreObj
  sub_genre : Option GenreObj
  bpm : Option Nat
  key : Option KeyObj
  isrc : Option String
  number : Option Nat
  is_available_for_streaming : Bool
  preorder : Bool
  length_ms : Option Nat
deriving DecidableEq

/-- A raw release (album) payload; every key is read with `.get`, so every
field is optional.  `artists` is `Option` because `album_data.get('artists',
[{}])` (line 390) distinguishes a missing key from an empty list. -/
structure AlbumData where
  id : Option Nat
  name : Option String
  artists : Option (List ArtistObj)
  track_count : Option Nat
  upc : Option String
deriving DecidableEq

/-! ## Duration rollups (claim C4) -/

/-- interface.py line 348 (inside `get_album_info`): `duration =
sum([t.get('length_ms') // 1000 for t in tracks])`.  There is no default on
this `.get`: a track payload lacking `length_ms` makes Python evaluate
`None // 1000`, raising `TypeError` and aborting the call — modelled as
`none`. -/
def album_duration (tracks : List TrackData) : Option Nat :=
  (tracks.mapM (fun (t : TrackData) => t.length_ms)).map
    (fun ls => (ls.map (fun ms => ms / 1000)).sum)

/-- interface.py line 299 (inside `get_playlist_info`): `duration =
sum([t.get('length_ms', 0) // 1000 for t in playlist_tracks])` — here the
`.get` has default `0`, so a missing duration contributes zero. -/
def playlist_duration (tracks : List TrackData) : Nat :=
  (tracks.map (fun t => (t.length_ms.getD 0) / 1000)).sum

/-! ## String machinery for artwork templating (claim C8)

interface.py lines 183-197 use `re` with the pattern `\d{3,4}x\d{3,4}` and
`str.format`.  The regex engine is embedded for exactly this pattern:
leftmost match, each `\d{3,4}` greedy with backtracking, `re.sub` replacing
every non-overlapping occurrence.  `\d` is modelled as an ASCII digit (the
URLs involved are ASCII). -/

/-- Consume exactly `n` digits, returning the remainder. -/
def dropDigits : Nat → List Char → Option (List Char)
  | 0, l => some l
  | _ + 1, [] => none
  | n + 1, c :: l => if c.isDigit then dropDigits n l else none

/-- Greedy match length of the trailing `\d{3,4}` (no continuation, so try 4
digits first, then 3). -/
def matchTailDigits (l : List Char) : Option Nat :=
  match dropDigits 4 l with
  | some _ => some 4
  | none =>
    match dropDigits 3 l with
    | some _ => some 3
    | none => none

/-- Match `x\d{3,4}` at the front. -/
def matchXTail : List Char → Option Nat
  | 'x' :: l => (matchTailDigits l).map (fun n => n + 1)
  | _ => none

/-- Match `\d{3,4}x\d{3,4}` at the front: the first group is greedy (try 4
digits, then backtrack to 3 if the rest of the pattern fails). -/
def matchFrom (l : List Char) : Option Nat :=
  match (match dropDigits 4 l with
         | some rest => (matchXTail rest).map (fun n => n + 4)
         | none => none) with
  | some n => some n
  | none =>
    match dropDigits 3 l with
    | some rest => (matchXTail rest).map (fun n => n + 3)
    | none => none

/-- `re.search` as a Boolean: does `\d{3,4}x\d{3,4}` match anywhere? -/
def hasResToken : List Char → Bool
  | [] => false
  | c :: rest => (matchFrom (c :: rest)).isSome || hasResToken rest

/-- The literal replacement / template placeholder. -/
def placeholderWH : List Char := "\x7bw\x7dx\x7bh\x7d".toList

/-- `re.sub` for the resolution pattern: replace every non-overlapping
leftmost occurrence.  Fuel-indexed (any fuel at least the list length is
enough, since every match is non-empty). -/
def reSubAll : Nat → List Char → List Char
  | 0, l => l
  | _ + 1, [] => []
  | fuel + 1, c :: l =>
    match matchFrom (c :: l) with
    | some n => placeholderWH ++ reSubAll fuel ((c :: l).drop n)
    | none => c :: reSubAll fuel l

/-- Does `pat` occur at the front of `l`? -/
def startsWithChars : List Char → List Char → Bool
  | [], _ => true
  | _ :: _, [] => false
  | p :: ps, c :: cs => p == c && startsWithChars ps cs

/-- Does `pat` occur anywhere in `l` (Python `in` on strings)? -/
def listHasSub (pat : List Char) : List Char → Bool
  | [] => startsWithChars pat []
  | c :: rest => startsWithChars pat (c :: rest) || listHasSub pat rest

/-- Does `suf` occur at the end of `l`? -/
def endsWithChars (suf l : List Char) : Bool :=
  startsWithChars suf.reverse l.reverse

/-- Replace every occurrence of `pat` (nonempty) by `rep`, scanning left to
right; one placeholder substitution step of `str.format`. -/
def replaceAllSub (pat rep : List Char) : Nat → List Char → List Char
  | 0, l => l
  | _ + 1, [] => []
  | fuel + 1, c :: l =>
    if startsWithChars pat (c :: l) then
      rep ++ replaceAllSub pat rep fuel ((c :: l).drop pat.length)
    else
      c :: replaceAllSub pat rep fuel l

/-- interface.py lines 183-197 (`_generate_artwork_url`): cap `size` at
`max_size = 1400`; if the URL contains a fixed `\d{3,4}x\d{3,4}` resolution
token, `re.sub` it to the `\x7bw\x7dx\x7bh\x7d` placeholder; then
`cover_url.format(w=size, h=size)`.  `str.format` is modelled as replacing
the two placeholders (the URLs contain no other brace fields, and the
substituted digits contain no braces, so sequential replacement agrees with
Python's single pass). -/
def generate_artwork_url (cover_url : String) (size : Nat) : String :=
  let max_size := 1400
  let size := if size > max_size then max_size else size
  let chars := cover_url.toList
  let chars := if hasResToken chars then reSubAll chars.length chars else chars
  let step1 := replaceAllSub "\x7bw\x7d".toList (Nat.repr size).toList chars.length chars
  let step2 := replaceAllSub "\x7bh\x7d".toList (Nat.repr size).toList step1.length step1
  String.mk step2

/-! ## Python exceptions -/

/-- A Python exception as seen by the module: either an instance of the
module's own error type `self.exception`, or any other exception (with its
`str(e)` message). -/
inductive PyExc where
  | moduleError (msg : String)
  | otherError (msg : String)
deriving DecidableEq

/-! ## Subscription validation (claim C6) -/

/-- The `bundle` object of a subscription; `plan_code` is read as
`bundle.get('plan_code', '')` (line 150), modelled with the default applied. -/
structure BundleData where
  plan_code : String
deriving DecidableEq

/-- The `subscription` object; `bundle` is `none` when the key is missing or
falsy (line 146-148). -/
structure SubObj where
  bundle : Option BundleData
deriving DecidableEq

/-- The subscription payload returned by `get_subscription()`.
`subscription = none` models a missing/falsy `subscription` key; `active` is
the truthiness of `.get('active')`; `status` is `.get('status', [])`. -/
structure SubscriptionData where
  subscription : Option SubObj
  active : Bool
  status : List String
deriving DecidableEq

/-- interface.py lines 135-160 (`valid_account`).  `fetch` is the outcome of
`self.session.get_subscription()`: `.error m` a transport/shape exception,
`.ok none` a falsy payload, `.ok (some sd)` a dict.  Every exception raised
inside the `try` — the typed entitlement raises included — is caught by
`except Exception` (line 158) and re-raised as the single generic message. -/
def valid_account (disable_subscription_check : Bool)
    (fetch : Except String (Option SubscriptionData)) : Except String Unit :=
  if disable_subscription_check then Except.ok () else
    let inner : Except String Unit :=
      match fetch with
      | .error m => .error m
      | .ok none => .error "Beatport: Account does not have an active subscription"
      | .ok (some sd) =>
        match sd.subscription with
        | none => .error "Beatport: Account does not have an active subscription"
        | some sub =>
          match sub.bundle with
          | none => .error "Beatport: Account does not have an active subscription"
          | some b =>
            if b.plan_code = "" ∨ b.plan_code ∉ ["bp_link", "bp_link_pro"] then
              .error "Beatport: Account does not have an active LINK or LINK PRO subscription"
            else if ¬ sd.active ∨ "active" ∉ sd.status then
              .error "Beatport: Account subscription is not active"
            else
              .ok ()
    match inner with
    | .ok _ => .ok ()
    | .error _ => .error "Failed to validate Beatport account"

/-- The entitlement conditions as the claim states them (refinement target,
written from the spec's words): a subscription object exists, it has a
non-empty plan bundle, the plan code is one of the two accepted tiers, and
the status is reported active (the payload's `active` flag and an `"active"`
entry in its status list). -/
def subscription_ok (sd : Option SubscriptionData) : Bool :=
  match sd with
  | none => false
  | some s =>
    match s.subscription with
    | none => false
    | some sub =>
      match sub.bundle with
      | none => false
      | some b =>
        (b.plan_code == "bp_link" || b.plan_code == "bp_link_pro")
          && s.active && s.status.contains "active"

/-! ## Session lifecycle (claim C3) -/

/-- The stored login credentials (`module_settings['username'/'password']`). -/
structure Credentials where
  username : String
  password : String
deriving DecidableEq

/-- The three persisted session values (`access_token`, `refresh_token`,
`expires`); `expires` is a timestamp. -/
structure TokenSet where
  access_token : String
  refresh_token : String
  expires : Nat
deriving DecidableEq

/-- Outcome of one `self.session.auth(email, password)` call (external
transport): the response's `error_description` and the token fields the call
stores on the session object. -/
structure LoginCall where
  error_description : Option String
  tokens : TokenSet
deriving DecidableEq

/-- Outcome of one `self.session.refresh()` call: `response = none` models a
falsy return, `some e` a dict whose `.get('error')` is `e`; `tokens` are the
session token fields after the call. -/
structure RefreshCall where
  response : Option (Option String)
  tokens : TokenSet
deriving DecidableEq

/-- Observable trace of one auth entry point: the call's outcome, the session
values written to the temporary-settings store (if any), which credentials
were used to log in, and how many login / refresh endpoint calls happened. -/
structure AuthTrace where
  result : Except String Unit
  persisted : Option TokenSet
  loginCalls : Nat
  loginCredentials : Option Credentials
  refreshCalls : Nat

/-- interface.py lines 120-133 (`login`): call `auth`, raise the response's
`error_description` if present, otherwise persist the session tokens and
re-run `valid_account` (whose outcome is passed via `disable`/`sub`).  A
`valid_account` failure raises, but only after the tokens were persisted. -/
def login (creds : Credentials) (lc : LoginCall) (disable : Bool)
    (sub : Except String (Option SubscriptionData)) : AuthTrace :=
  match lc.error_description with
  | some d =>
    { result := .error d, persisted := none, loginCalls := 1
      loginCredentials := some creds, refreshCalls := 0 }
  | none =>
    match valid_account disable sub with
    | .error m =>
      { result := .error m, persisted := some lc.tokens, loginCalls := 1
        loginCredentials := some creds, refreshCalls := 0 }
    | .ok _ =>
      { result := .ok (), persisted := some lc.tokens, loginCalls := 1
        loginCredentials := some creds, refreshCalls := 0 }

/-- interface.py lines 99-118 (`refresh_token`): call `refresh()` once; if the
response is truthy and its `error` field equals `invalid_grant`, fall back to
a full `login` with the stored credentials and return; otherwise persist the
post-refresh session tokens. -/
def refresh_token (stored : Credentials) (rc : RefreshCall) (lc : LoginCall)
    (disable : Bool) (sub : Except String (Option SubscriptionData)) : AuthTrace :=
  let invalid_grant :=
    match rc.response with
    | some (some e) => e == "invalid_grant"
    | _ => false
  if invalid_grant then
    let t := login stored lc disable sub
    { t with refreshCalls := t.refreshCalls + 1 }
  else
    { result := .ok (), persisted := some rc.tokens, loginCalls := 0
      loginCredentials := none, refreshCalls := 1 }

/-! ## Track info assembly (claims C5, C7, C9) -/

/-- The host `Tags` record as filled by `get_track_info` (lines 389-400). -/
structure Tags where
  album_artist : Option String
  track_number : Option Nat
  total_tracks : Option Nat
  upc : Option String
  isrc : Option String
  genres : List String
  release_date : Option String
  copyright : String
  label : String
  extra_tags : List (String × String)
deriving DecidableEq

/-- The host `TrackInfo` record as filled by `get_track_info` (lines
415-432). -/
structure TrackInfo where
  name : String
  album : Option String
  album_id : Option Nat
  artists : List String
  artist_id : Nat
  release_year : Option String
  duration : Option Nat
  bitrate : Nat
  bit_depth : Option Nat
  sample_rate : ℚ
  cover_url : String
  tags : Tags
  codec : CodecEnum
  error : Option String
  download_track_id : Nat
  download_quality_tier : QualityEnum
deriving DecidableEq

/-- Outcome of a `self.session.get_release(album_id)` network call. -/
inductive ReleaseFetch where
  | ok (a : AlbumData)
  | connectionError (msg : String)
  | raiseOther (e : PyExc)
deriving DecidableEq

/-- The pre-fetched raw-data cache (`data` dict).  The Python dict maps ids to
heterogeneous raw JSON payloads; it is modelled as its two typed views. -/
structure Cache where
  trackData : List (Nat × TrackData)
  releaseData : List (Nat × AlbumData)
deriving DecidableEq

/-- interface.py lines 390: `album_data.get('artists', [{}])[0].get('name')` —
with `album_data = {}` or a missing `artists` key the default `[{}]` makes the
result `None`; an empty `artists` list raises `IndexError`. -/
def album_artist_of : Option AlbumData → Except PyExc (Option String)
  | none => .ok none
  | some a =>
    match a.artists with
    | none => .ok none
    | some [] => .error (.otherError "IndexError: list index out of range")
    | some (x :: _) => .ok (some x.name)

/-- interface.py lines 357-434 (`get_track_info`).  `data` is the optional
pre-fetched cache, `netTrack` is what `session.get_track(track_id)` would
return if called, `netRelease` what `session.get_release(album_id)` would do.
Returns the outcome together with the number of track fetches and release
fetches issued.  Faithful details: a `ConnectionError` from the release fetch
is swallowed, setting the region-lock `error` only when its message contains
`Territory Restricted.`; any other exception propagates; `error` is
overwritten by the not-streamable / pre-release messages (lines 402-405); a
falsy (zero) `length_ms` yields `duration = None`; the copyright f-string
renders an absent year as the text `None`. -/
def get_track_info (data : Cache) (track_id : Nat) (quality_tier : QualityEnum)
    (cover_size : Nat) (netTrack : TrackData) (netRelease : ReleaseFetch) :
    Except PyExc TrackInfo × Nat × Nat :=
  let tFetch : TrackData × Nat :=
    match data.trackData.lookup track_id with
    | some t => (t, 0)
    | none => (netTrack, 1)
  let track_data := tFetch.1
  let album_id := track_data.release.id
  let rStep : Except PyExc (Option AlbumData × Option String) × Nat :=
    match data.releaseData.lookup album_id with
    | some a => (.ok (some a, none), 0)
    | none =>
      match netRelease with
      | .ok a => (.ok (some a, none), 1)
      | .connectionError msg =>
        if listHasSub "Territory Restricted.".toList msg.toList then
          (.ok (none, some ("Album " ++ Nat.repr album_id ++ " is region locked")), 1)
        else
          (.ok (none, none), 1)
      | .raiseOther e => (.error e, 1)
  match rStep.1 with
  | .error e => (.error e, tFetch.2, rStep.2)
  | .ok (album_data, error0) =>
    match album_artist_of album_data with
    | .error e => (.error e, tFetch.2, rStep.2)
    | .ok album_artist =>
      match track_data.artists with
      | [] =>
        -- line 420: `track_data.get('artists')[0].get('id')` raises on an empty list
        (.error (.otherError "IndexError: list index out of range"), tFetch.2, rStep.2)
      | a0 :: rest =>
        let track_name := track_data.name ++
          (match track_data.mix_name with
           | some m => " (" ++ m ++ ")"
           | none => "")
        let release_year := track_data.publish_date.map (fun s => s.take 4)
        let genres := [track_data.genre.name] ++
          (match track_data.sub_genre with
           | some g => [g.name]
           | none => [])
        let extra_tags :=
          (match track_data.bpm with
           | some b => [("BPM", Nat.repr b)]
           | none => []) ++
          (match track_data.key with
           | some k => [("Key", k.name)]
           | none => [])
        let yearText :=
          match release_year with
          | some y => y
          | none => "None"
        let tags : Tags :=
          { album_artist := album_artist
            track_number := track_data.number
            total_tracks := album_data.bind (fun a => a.track_count)
            upc := album_data.bind (fun a => a.upc)
            isrc := track_data.isrc
            genres := genres
            release_date := track_data.publish_date
            copyright := "© " ++ yearText ++ " " ++ track_data.release.label.name
            label := track_data.release.label.name
            extra_tags := extra_tags }
        let error1 :=
          if track_data.is_available_for_streaming = false then
            some ("Track \"" ++ track_data.name ++ "\" is not streamable!")
          else if track_data.preorder then
            some ("Track \"" ++ track_data.name ++ "\" is not yet released!")
          else
            error0
        let q := track_quality_fields quality_tier
        let info : TrackInfo :=
          { name := track_name
            album := album_data.bind (fun a => a.name)
            album_id := album_data.bind (fun a => a.id)
            artists := (a0 :: rest).map ArtistObj.name
            artist_id := a0.id
            release_year := release_year
            duration :=
              match track_data.length_ms with
              | some ms => if ms = 0 then none else some (ms / 1000)
              | none => none
            bitrate := q.bitrate
            bit_depth := q.bit_depth
            sample_rate := q.sample_rate
            cover_url := generate_artwork_url track_data.release.image.dynamic_uri cover_size
            tags := tags
            codec := q.codec
            error := error1
            download_track_id := track_id
            download_quality_tier := quality_tier }
        (.ok info, tFetch.2, rStep.2)

/-! ## Download orchestration (claims C2, C10) -/

/-- The host `DownloadEnum` member used. -/
inductive DownloadEnum where
  | TEMP_FILE_PATH
deriving DecidableEq

/-- The host `TrackDownloadInfo` record as filled on success (lines 480-484). -/
structure TrackDownloadInfo where
  download_type : DownloadEnum
  temp_file_path : String
  different_codec : CodecEnum
deriving DecidableEq

/-- Decidable equality of exception-or-value outcomes. -/
instance exceptDecEq {ε α : Type} [DecidableEq ε] [DecidableEq α] :
    DecidableEq (Except ε α) := fun x y =>
  match x, y with
  | .ok a, .ok b =>
    if h : a = b then isTrue (by rw [h]) else isFalse (by intro hh; cases hh; exact h rfl)
  | .error a, .error b =>
    if h : a = b then isTrue (by rw [h]) else isFalse (by intro hh; cases hh; exact h rfl)
  | .ok _, .error _ => isFalse (by intro hh; cases hh)
  | .error _, .ok _ => isFalse (by intro hh; cases hh)

/-- Oracle outcomes of the external collaborators consulted by one
`get_track_download` call: `temp_name` is `create_temp_filename()`;
`stream_url` is `stream_data.get('stream_url')` (`none` also covering a falsy
`stream_data`); `manifest` and `download` are the outcomes of
`get_stream_manifest` and `download_segments`; `fileWritten` says whether the
destination file is on disk after the download step, and `fileSize` its size
then. -/
structure DlCall where
  temp_name : String
  stream_url : Option String
  manifest : Except PyExc Unit
  download : Except PyExc Unit
  fileWritten : Bool
  fileSize : Nat
deriving DecidableEq

/-- interface.py lines 492-494: re-raise the module's own typed error
unchanged, wrap anything else as `Download failed: ...`. -/
def wrap_exc : PyExc → PyExc
  | .moduleError m => .moduleError m
  | .otherError m => .moduleError ("Download failed: " ++ m)

/-- interface.py lines 447-494 (`get_track_download`).  Returns the call's
outcome together with whether the temporary file exists on disk after the
call returns.  The `except` block (486-494) removes the temp file when it was
created and still exists (`os.remove` modelled as succeeding), re-raises the
module's typed errors unchanged, and wraps every other exception.  Before the
stream URL is obtained `temp_file` is `None`, so nothing is cleaned up on
that path. -/
def get_track_download (quality_tier : QualityEnum) (c : DlCall) :
    Except PyExc TrackDownloadInfo × Bool :=
  -- line 456: quality label sent with the stream request
  let _quality := quality_parse quality_tier
  match c.stream_url with
  | none => (.error (.moduleError "Could not get stream URL"), false)
  | some _ =>
    let temp_file := "temp/" ++ c.temp_name ++ ".m4a"
    match c.manifest with
    | .error e =>
      -- the file was never created: cleanup is a no-op
      (.error (wrap_exc e), false)
    | .ok _ =>
      match c.download with
      | .error e =>
        -- any partially written file is removed by the except block
        (.error (wrap_exc e), false)
      | .ok _ =>
        if c.fileWritten = false then
          (.error (.moduleError ("Failed to create temporary file at " ++ temp_file)), false)
        else if c.fileSize = 0 then
          -- the file exists, so the except block removes it
          (.error (.moduleError ("Downloaded file is empty: " ++ temp_file)), false)
        else
          (.ok { download_type := .TEMP_FILE_PATH
                 temp_file_path := temp_file
                 different_codec := .AAC }, true)

/-! ## Sample payloads used by concrete witnesses and counterexamples -/

/-- A concrete release reference. -/
def sampleRelease : ReleaseRef :=
  { id := 100
    label := { name := "Anjunabeats" }
    image := { dynamic_uri := "https://geo-media.beatport.com/image_size/\x7bw\x7dx\x7bh\x7d/a.jpg" } }

/-- A concrete, fully populated track payload. -/
def sampleTrack : TrackData :=
  { id := 1
    name := "Darkside"
    mix_name := none
    artists := [{ id := 7, name := "Alpha 9" }]
    release := sampleRelease
    publish_date := some "2018-07-13"
    genre := { name := "Trance" }
    sub_genre := none
    bpm := some 138
    key := none
    isrc := some "GBEWA1800123"
    number := some 1
    is_available_for_streaming := true
    preorder := false
    length_ms := some 200000 }

/-- A track payload whose `length_ms` key is absent. -/
def trackNoLength : TrackData :=
  { sampleTrack with id := 2, name := "Nolength", length_ms := none }

/-- A concrete release payload. -/
def sampleAlbum : AlbumData :=
  { id := some 100
    name := some "Singles"
    artists := some [{ id := 7, name := "Alpha 9" }]
    track_count := some 2
    upc := some "0190296950000" }

/-- A download-call oracle describing a fully successful download. -/
def dlOk : DlCall :=
  { temp_name := "tmpabc123"
    stream_url := some "https://stream.beatport.com/x.mpd"
    manifest := .ok ()
    download := .ok ()
    fileWritten := true
    fileSize := 4242 }

/-- A download-call oracle whose segment download raises a non-module error
after the temp file was partially written. -/
def dlFail : DlCall :=
  { dlOk with download := .error (.otherError "socket timeout"), fileWritten := true }

/-- The artifact produced by a successful download with the `dlOk` oracle. -/
def dlOkInfo : TrackDownloadInfo :=
  { download_type := .TEMP_FILE_PATH
    temp_file_path := "temp/tmpabc123.m4a"
    different_codec := .AAC }

/-- A message carrying the territory-restriction signal. -/
def territoryMsg : String := "Fetch failed: Territory Restricted."

/-- A cache pre-populated with `sampleTrack` and its release. -/
def sampleCache : Cache := { trackData := [(1, sampleTrack)], releaseData := [(100, sampleAlbum)] }

/-- Concrete stored credentials. -/
def storedCreds : Credentials := { username := "user at example.com", password := "hunter2" }

/-- Tokens carried by a successful login response. -/
def loginTokens : TokenSet := { access_token := "acc2", refresh_token := "ref2", expires := 1700000000 }

/-- Tokens carried by a failed refresh response. -/
def refreshTokens : TokenSet := { access_token := "accX", refresh_token := "refX", expires := 1600000000 }

/-- A refresh call whose response signals `invalid_grant`. -/
def rcInvalid : RefreshCall := { response := some (some "invalid_grant"), tokens := refreshTokens }

/-- A successful login call. -/
def lcOk : LoginCall := { error_description := none, tokens := loginTokens }

/-! ## Helper lemmas -/

theorem join_pageResults {α : Type} (items : List α) (n : Nat) :
    ((List.range' 1 n).map (fun p => pageResults items p)).flatten = items.take (100 * n) := by
  induction n with
  | zero => simp
  | succ k ih =>
    have hconcat : List.range' 1 (k + 1) = List.range' 1 k ++ [1 + k] := by
      have h : List.range' 1 (k + 1) 1 = List.range' 1 k 1 ++ [1 + 1 * k] :=
        List.range'_concat 1 k
      simpa using h
    have harith : (1 + k - 1) * 100 = 100 * k := by omega
    have hpage : pageResults items (1 + k) = (items.drop (100 * k)).take 100 := by
      simp only [pageResults, harith]
    rw [hconcat, List.map_append, List.flatten_append, ih]
    simp only [List.map_cons, List.map_nil, List.flatten_cons, List.flatten_nil,
      List.append_nil]
    rw [hpage, Nat.mul_succ, List.take_add]

theorem merged_eq_take {α : Type} (items : List α) (m : Nat) :
    pageResults items 1 ++ ((List.range' 2 m).map (fun p => pageResults items p)).flatten
      = items.take (100 * (m + 1)) := by
  have h := join_pageResults items (m + 1)
  have hsucc : List.range' 1 (m + 1) = 1 :: List.range' 2 m := List.range'_succ 1 m 1
  rw [hsucc] at h
  simpa using h

theorem merged_len {α : Type} (items : List α) (m : Nat) (h : items.length ≤ 100 * (m + 1)) :
    (pageResults items 1 ++
      ((List.range' 2 m).map (fun p => pageResults items p)).flatten).length = items.length := by
  rw [merged_eq_take]
  simp only [List.length_take]
  omega

theorem mapped_merged_len {α : Type} (entries : List (PlaylistEntry α)) (m : Nat)
    (h : entries.length ≤ 100 * (m + 1)) :
    ((pageResults entries 1).map PlaylistEntry.track ++
      ((List.range' 2 m).map (fun p => (pageResults entries p).map PlaylistEntry.track)).flatten).length
      = entries.length := by
  have key := merged_len entries m h
  simp only [List.length_append, List.length_flatten, List.map_map, Function.comp_def,
    List.length_map] at key ⊢
  exact key

/-! ## Claim theorems -/

/-- C1 counterexample: on an album whose declared track count is exactly 100
(an exact multiple of the page size), `get_album_info`'s aggregation issues 2
page fetches — pages 1 and 2 — although ceil(100/100) = 1, contradicting the
claim that every paginated aggregation issues exactly ceil(C/P) fetches with
no needless page-2 call at exact multiples. -/
theorem c1_counterexample :
    (albumFetchAll (List.range 100)).2 = 2 ∧ (100 + 99) / 100 = 1 ∧
    (albumFetchAll (List.range 100)).2 ≠ (100 + 99) / 100 := by
  refine ⟨?_, ?_, ?_⟩ <;> decide

/-- C1 amended: the playlist/chart aggregation issues max(1, ceil(C/100)) page
fetches — exactly ceil(C/P) for every C ≥ 1, so C=100 needs only page 1 and
C=101 needs pages 1 and 2 — while the album-release and artist aggregations
issue floor(C/100)+1 fetches, one needless extra page call at exact multiples
of the page size; in all four aggregations the merged item sequence has
length C. -/
theorem c1_amended : ∀ (α : Type) (entries : List (PlaylistEntry α)) (l : List α),
    ((playlistFetchAll entries).1.length = entries.length ∧
      (playlistFetchAll entries).2 = max 1 ((entries.length + 99) / 100)) ∧
    ((chartFetchAll l).1.length = l.length ∧
      (chartFetchAll l).2 = max 1 ((l.length + 99) / 100)) ∧
    ((albumFetchAll l).1.length = l.length ∧
      (albumFetchAll l).2 = l.length / 100 + 1) ∧
    ((artistFetchAll l).1.length = l.length ∧
      (artistFetchAll l).2 = l.length / 100 + 1) := by
  intro α entries l
  have hb1 : entries.length ≤ 100 * ((entries.length - 1) / 100 + 1) := by omega
  have hb2 : l.length ≤ 100 * ((l.length - 1) / 100 + 1) := by omega
  have hb3 : l.length ≤ 100 * (l.length / 100 + 1) := by omega
  refine ⟨⟨?_, ?_⟩, ⟨?_, ?_⟩, ⟨?_, ?_⟩, ⟨?_, ?_⟩⟩
  · simpa [playlistFetchAll] using mapped_merged_len entries ((entries.length - 1) / 100) hb1
  · simp only [playlistFetchAll, List.length_range']
    omega
  · simpa [chartFetchAll] using merged_len l ((l.length - 1) / 100) hb2
  · simp only [chartFetchAll, List.length_range']
    omega
  · simpa [albumFetchAll] using merged_len l (l.length / 100) hb3
  · simp only [albumFetchAll, List.length_range']
    omega
  · simpa [artistFetchAll] using merged_len l (l.length / 100) hb3
  · simp only [artistFetchAll, List.length_range']
    omega

/-- C4: the claim (and spec) say a track lacking a duration contributes zero
to the album duration sum and never aborts the call, but `get_album_info`
(line 348) reads `length_ms` with no default, so a missing duration evaluates
`None // 1000` and raises `TypeError` — the sum aborts (`none`), while the
playlist rollup (line 299, with default 0) behaves as the claim states. -/
theorem c4_album_duration_abort :
    album_duration [sampleTrack] = some 200 ∧
    album_duration [sampleTrack, trackNoLength] = none ∧
    playlist_duration [sampleTrack, trackNoLength] = 200 := by
  refine ⟨?_, ?_, ?_⟩ <;> rfl

/-- C7: quality tier HIGH resolves to bitrate 256, codec AAC, bit depth
unset; LOSSLESS and HIFI resolve to bitrate 1411, the lossless codec FLAC,
and bit depth 16; the remaining tiers (MINIMUM, LOW, MEDIUM) resolve to
bitrate 128, codec AAC, bit depth unset; and the sample rate is 44.1 for
every tier (all six tiers are enumerated). -/
theorem c7_quality_mapping :
    track_quality_fields QualityEnum.HIGH =
      { bitrate := 256, bit_depth := none, sample_rate := (441 : ℚ) / 10,
        codec := CodecEnum.AAC } ∧
    track_quality_fields QualityEnum.LOSSLESS =
      { bitrate := 1411, bit_depth := some 16, sample_rate := (441 : ℚ) / 10,
        codec := CodecEnum.FLAC } ∧
    track_quality_fields QualityEnum.HIFI =
      { bitrate := 1411, bit_depth := some 16, sample_rate := (441 : ℚ) / 10,
        codec := CodecEnum.FLAC } ∧
    track_quality_fields QualityEnum.MINIMUM =
      { bitrate := 128, bit_depth := none, sample_rate := (441 : ℚ) / 10,
        codec := CodecEnum.AAC } ∧
    track_quality_fields QualityEnum.LOW =
      { bitrate := 128, bit_depth := none, sample_rate := (441 : ℚ) / 10,
        codec := CodecEnum.AAC } ∧
    track_quality_fields QualityEnum.MEDIUM =
      { bitrate := 128, bit_depth := none, sample_rate := (441 : ℚ) / 10,
        codec := CodecEnum.AAC } := by
  refine ⟨?_, ?_, ?_, ?_, ?_, ?_⟩ <;> rfl

/-- C8: artwork templating clamps the requested size to at most 1400 (sizes
above 1400 behave exactly like 1400); a URL containing the fixed resolution
token 640x640 with requested size 2000 yields the URL with 1400x1400
substituted (in particular it contains "1400x1400"); and a URL with no
resolution token and requested size 500 gets 500 substituted for both the
width and height placeholders. -/
theorem c8_artwork_templating :
    (∀ (url : String) (s : Nat), 1400 < s →
      generate_artwork_url url s = generate_artwork_url url 1400) ∧
    generate_artwork_url "https://geo-media.beatport.com/image_size/640x640/cover.jpg" 2000 =
      "https://geo-media.beatport.com/image_size/1400x1400/cover.jpg" ∧
    listHasSub "1400x1400".toList
      (generate_artwork_url "https://geo-media.beatport.com/image_size/640x640/cover.jpg"
        2000).toList = true ∧
    generate_artwork_url "https://geo-media.beatport.com/image_size/\x7bw\x7dx\x7bh\x7d/cover.jpg"
        500 =
      "https://geo-media.beatport.com/image_size/500x500/cover.jpg" := by
  refine ⟨?_, by decide, by decide, by decide⟩
  intro url s hs
  simp only [generate_artwork_url, gt_iff_lt]
  rw [if_pos hs, if_neg (lt_irrefl 1400)]

/-- C8 witness: the clamping hypothesis discharged at the concrete size 2000,
via the theorem itself. -/
theorem c8_artwork_templating_witness :
    generate_artwork_url "https://geo-media.beatport.com/image_size/640x640/cover.jpg" 2000 =
      generate_artwork_url "https://geo-media.beatport.com/image_size/640x640/cover.jpg" 1400 :=
  c8_artwork_templating.1 "https://geo-media.beatport.com/image_size/640x640/cover.jpg" 2000
    (by decide)

theorem startsWithChars_append (p t : List Char) : startsWithChars p (p ++ t) = true := by
  induction p with
  | nil => rfl
  | cons c cs ih => simp [startsWithChars, ih]

theorem endsWithChars_append (s suf : List Char) : endsWithChars suf (s ++ suf) = true := by
  unfold endsWithChars
  rw [List.reverse_append]
  exact startsWithChars_append suf.reverse s.reverse

/-- C2: whenever `get_track_download` fails after the temporary file path was
allocated (the stream URL was obtained), the temporary file does not exist on
disk after the call, the propagated error is an instance of the module's
typed error, a non-module exception from the manifest or segment-download
step surfaces as that exception wrapped by `wrap_exc`, and `wrap_exc` wraps
untyped errors into the download-failure message while passing the module's
own typed errors through unchanged. -/
theorem c2_download_cleanup :
    ∀ (tier : QualityEnum) (c : DlCall) (u : String) (e : PyExc),
      c.stream_url = some u →
      (get_track_download tier c).1 = Except.error e →
      (get_track_download tier c).2 = false ∧
      (∃ m, e = PyExc.moduleError m) ∧
      (∀ e0, c.manifest = Except.error e0 → e = wrap_exc e0) ∧
      (∀ e0, c.manifest = Except.ok () → c.download = Except.error e0 → e = wrap_exc e0) ∧
      (∀ m, wrap_exc (PyExc.moduleError m) = PyExc.moduleError m) ∧
      (∀ m, wrap_exc (PyExc.otherError m) = PyExc.moduleError ("Download failed: " ++ m)) := by
  intro tier c u e hs hr
  cases hm : c.manifest with
  | error e0 =>
    have hres : get_track_download tier c = (Except.error (wrap_exc e0), false) := by
      simp [get_track_download, hs, hm]
    rw [hres] at hr
    simp only [Except.error.injEq] at hr
    subst hr
    refine ⟨by rw [hres], ?_, ?_, ?_, fun m => rfl, fun m => rfl⟩
    · cases e0 <;> exact ⟨_, rfl⟩
    · intro e1 h1
      simp only [Except.error.injEq] at h1
      rw [h1]
    · intro e1 hok
      simp at hok
  | ok uu =>
    cases uu
    cases hd : c.download with
    | error e0 =>
      have hres : get_track_download tier c = (Except.error (wrap_exc e0), false) := by
        simp [get_track_download, hs, hm, hd]
      rw [hres] at hr
      simp only [Except.error.injEq] at hr
      subst hr
      refine ⟨by rw [hres], ?_, ?_, ?_, fun m => rfl, fun m => rfl⟩
      · cases e0 <;> exact ⟨_, rfl⟩
      · intro e1 h1
        simp at h1
      · intro e1 _ h1
        simp only [Except.error.injEq] at h1
        rw [h1]
    | ok uu2 =>
      cases uu2
      cases hw : c.fileWritten with
      | false =>
        have hres : get_track_download tier c =
            (Except.error (PyExc.moduleError
              ("Failed to create temporary file at " ++ ("temp/" ++ c.temp_name ++ ".m4a"))),
             false) := by
          simp [get_track_download, hs, hm, hd, hw]
        rw [hres] at hr
        simp only [Except.error.injEq] at hr
        subst hr
        refine ⟨by rw [hres], ⟨_, rfl⟩, ?_, ?_, fun m => rfl, fun m => rfl⟩
        · intro e1 h1
          simp at h1
        · intro e1 _ h1
          simp at h1
      | true =>
        by_cases hz : c.fileSize = 0
        · have hres : get_track_download tier c =
              (Except.error (PyExc.moduleError
                ("Downloaded file is empty: " ++ ("temp/" ++ c.temp_name ++ ".m4a"))),
               false) := by
            simp [get_track_download, hs, hm, hd, hw, hz]
          rw [hres] at hr
          simp only [Except.error.injEq] at hr
          subst hr
          refine ⟨by rw [hres], ⟨_, rfl⟩, ?_, ?_, fun m => rfl, fun m => rfl⟩
          · intro e1 h1
            simp at h1
          · intro e1 _ h1
            simp at h1
        · have hres : (get_track_download tier c).1 = Except.ok
              { download_type := DownloadEnum.TEMP_FILE_PATH
                temp_file_path := "temp/" ++ c.temp_name ++ ".m4a"
                different_codec := CodecEnum.AAC } := by
            simp [get_track_download, hs, hm, hd, hw, hz]
          rw [hres] at hr
          simp at hr

/-- C2 witness: a segment-download failure with a non-module exception, after
the stream URL was obtained, leaves no temp file and surfaces as the wrapped
download-failure error. -/
theorem c2_download_cleanup_witness :
    dlFail.stream_url = some "https://stream.beatport.com/x.mpd" ∧
    (get_track_download QualityEnum.HIGH dlFail).1 =
      Except.error (PyExc.moduleError "Download failed: socket timeout") ∧
    (get_track_download QualityEnum.HIGH dlFail).2 = false := by
  have h1 : dlFail.stream_url = some "https://stream.beatport.com/x.mpd" := rfl
  have h2 : (get_track_download QualityEnum.HIGH dlFail).1 =
      Except.error (PyExc.moduleError "Download failed: socket timeout") := rfl
  exact ⟨h1, h2, (c2_download_cleanup QualityEnum.HIGH dlFail _ _ h1 h2).1⟩

/-- C10: every successful `get_track_download` call, for every quality tier
(LOSSLESS and HIFI included), returns an artifact whose codec is AAC, whose
download type is the temp-file path, and whose temporary file path carries
the `.m4a` extension. -/
theorem c10_download_always_aac :
    ∀ (tier : QualityEnum) (c : DlCall) (info : TrackDownloadInfo),
      (get_track_download tier c).1 = Except.ok info →
      info.different_codec = CodecEnum.AAC ∧
      info.download_type = DownloadEnum.TEMP_FILE_PATH ∧
      endsWithChars ".m4a".toList info.temp_file_path.toList = true := by
  intro tier c info h
  cases hs : c.stream_url with
  | none => simp [get_track_download, hs] at h
  | some u =>
    cases hm : c.manifest with
    | error e0 => simp [get_track_download, hs, hm] at h
    | ok uu =>
      cases uu
      cases hd : c.download with
      | error e0 => simp [get_track_download, hs, hm, hd] at h
      | ok uu2 =>
        cases uu2
        cases hw : c.fileWritten with
        | false => simp [get_track_download, hs, hm, hd, hw] at h
        | true =>
          by_cases hz : c.fileSize = 0
          · simp [get_track_download, hs, hm, hd, hw, hz] at h
          · have hres : (get_track_download tier c).1 = Except.ok
                { download_type := DownloadEnum.TEMP_FILE_PATH
                  temp_file_path := "temp/" ++ c.temp_name ++ ".m4a"
                  different_codec := CodecEnum.AAC } := by
              simp [get_track_download, hs, hm, hd, hw, hz]
            rw [hres] at h
            simp only [Except.ok.injEq] at h
            subst h
            refine ⟨rfl, rfl, ?_⟩
            show endsWithChars ".m4a".toList ("temp/" ++ c.temp_name ++ ".m4a").toList = true
            have hsplit : ("temp/" ++ c.temp_name ++ ".m4a").toList =
                ("temp/" ++ c.temp_name).toList ++ ".m4a".toList := by
              simp [String.toList, String.data_append]
            rw [hsplit]
            exact endsWithChars_append _ _

/-- C10 witness: a successful LOSSLESS-tier download still yields codec AAC
and an `.m4a` temp file. -/
theorem c10_download_always_aac_witness :
    (get_track_download QualityEnum.LOSSLESS dlOk).1 = Except.ok dlOkInfo ∧
    dlOkInfo.different_codec = CodecEnum.AAC ∧
    endsWithChars ".m4a".toList dlOkInfo.temp_file_path.toList = true := by
  have h : (get_track_download QualityEnum.LOSSLESS dlOk).1 = Except.ok dlOkInfo := rfl
  have hc := c10_download_always_aac QualityEnum.LOSSLESS dlOk dlOkInfo h
  exact ⟨h, hc.1, hc.2.2⟩

/-- C3: when the refresh response signals `invalid_grant`, `refresh_token`
performs exactly one login, with the stored credentials, issues no second
refresh call, and the persisted session state equals the login response's
token values (not the failed refresh response's). -/
theorem c3_refresh_self_healing :
    ∀ (stored : Credentials) (rc : RefreshCall) (lc : LoginCall) (disable : Bool)
      (sub : Except String (Option SubscriptionData)),
      rc.response = some (some "invalid_grant") →
      lc.error_description = none →
      (refresh_token stored rc lc disable sub).loginCalls = 1 ∧
      (refresh_token stored rc lc disable sub).refreshCalls = 1 ∧
      (refresh_token stored rc lc disable sub).loginCredentials = some stored ∧
      (refresh_token stored rc lc disable sub).persisted = some lc.tokens := by
  intro stored rc lc disable sub hr hl
  simp only [refresh_token, hr, login, hl]
  cases valid_account disable sub <;> simp

/-- C3 witness: a concrete `invalid_grant` refresh followed by a successful
login persists the login tokens, with one login and one refresh call. -/
theorem c3_refresh_self_healing_witness :
    rcInvalid.response = some (some "invalid_grant") ∧
    lcOk.error_description = none ∧
    (refresh_token storedCreds rcInvalid lcOk true (Except.ok none)).persisted =
      some loginTokens ∧
    (refresh_token storedCreds rcInvalid lcOk true (Except.ok none)).loginCalls = 1 ∧
    (refresh_token storedCreds rcInvalid lcOk true (Except.ok none)).refreshCalls = 1 := by
  have h := c3_refresh_self_healing storedCreds rcInvalid lcOk true (Except.ok none) rfl rfl
  exact ⟨rfl, rfl, h.2.2.2, h.1, h.2.1⟩

/-- C6: with subscription checking disabled, validation always passes; with
it enabled, validation fails if and only if the fetched data does not satisfy
the entitlement conditions (subscription object exists, non-empty plan
bundle, plan code bp_link or bp_link_pro, status reported active), and every
failure — a transport/shape error included — surfaces as the single generic
message, never the raw cause. -/
theorem c6_subscription_validation :
    ∀ (m : String) (sd : Option SubscriptionData)
      (fetch : Except String (Option SubscriptionData)),
      valid_account true fetch = Except.ok () ∧
      valid_account false (Except.error m) =
        Except.error "Failed to validate Beatport account" ∧
      valid_account false (Except.ok sd) =
        (if subscription_ok sd then Except.ok ()
         else Except.error "Failed to validate Beatport account") := by
  intro m sd fetch
  refine ⟨rfl, rfl, ?_⟩
  cases sd with
  | none => simp [valid_account, subscription_ok]
  | some s =>
    cases hsub : s.subscription with
    | none => simp [valid_account, subscription_ok, hsub]
    | some sub =>
      cases hb : sub.bundle with
      | none => simp [valid_account, subscription_ok, hsub, hb]
      | some b =>
        simp only [valid_account, subscription_ok, hsub, hb]
        by_cases h1 : b.plan_code = "" ∨ b.plan_code ∉ ["bp_link", "bp_link_pro"]
        · rw [if_pos h1]
          have hnot : ¬ (((b.plan_code = "bp_link" ∨ b.plan_code = "bp_link_pro") ∧
              s.active = true) ∧ "active" ∈ s.status) := by
            rintro ⟨⟨hp, -⟩, -⟩
            rcases h1 with h | h
            · rcases hp with hp | hp <;> rw [h] at hp <;> simp at hp
            · exact h (by rcases hp with hp | hp <;> simp [hp])
          simp [hnot]
        · rw [if_neg h1]
          push_neg at h1
          by_cases h2 : ¬ s.active = true ∨ "active" ∉ s.status
          · rw [if_pos h2]
            have hnot : ¬ (((b.plan_code = "bp_link" ∨ b.plan_code = "bp_link_pro") ∧
                s.active = true) ∧ "active" ∈ s.status) := by
              rintro ⟨⟨-, ha⟩, hm2⟩
              rcases h2 with h | h
              · exact h ha
              · exact h hm2
            simp [hnot]
          · rw [if_neg h2]
            push_neg at h2
            have hyes : ((b.plan_code = "bp_link" ∨ b.plan_code = "bp_link_pro") ∧
                s.active = true) ∧ "active" ∈ s.status := by
              refine ⟨⟨?_, h2.1⟩, h2.2⟩
              have := h1.2
              simpa using this
            simp [hyes]

/-- C5: a track whose parent-release fetch fails with a `ConnectionError`
carrying the territory-restriction signal does not make `get_track_info`
raise: the returned record carries a non-null `error` field (the descriptive
region-lock message whenever the track is otherwise streamable and released)
while the name and artists are still populated from the track data; likewise
a not-streamable or pre-release track populates the same non-fatal `error`
field instead of raising. -/
theorem c5_territory_restriction :
    ∀ (td : TrackData) (tier : QualityEnum) (cs : Nat) (msg : String) (a : AlbumData),
      td.artists ≠ [] →
      a.artists ≠ some [] →
      (listHasSub "Territory Restricted.".toList msg.toList = true →
        ∃ ti, (get_track_info ⟨[], []⟩ td.id tier cs td (.connectionError msg)).1 =
            Except.ok ti ∧
          ti.error.isSome = true ∧
          (td.is_available_for_streaming = true → td.preorder = false →
            ti.error = some ("Album " ++ Nat.repr td.release.id ++ " is region locked")) ∧
          ti.name = td.name ++
            (match td.mix_name with
             | some mx => " (" ++ mx ++ ")"
             | none => "") ∧
          ti.artists = td.artists.map ArtistObj.name) ∧
      (td.is_available_for_streaming = false →
        ∃ ti, (get_track_info ⟨[], []⟩ td.id tier cs td (.ok a)).1 = Except.ok ti ∧
          ti.error = some ("Track \"" ++ td.name ++ "\" is not streamable!")) ∧
      (td.is_available_for_streaming = true → td.preorder = true →
        ∃ ti, (get_track_info ⟨[], []⟩ td.id tier cs td (.ok a)).1 = Except.ok ti ∧
          ti.error = some ("Track \"" ++ td.name ++ "\" is not yet released!")) := by
  intro td tier cs msg a hart haa
  obtain ⟨a0, rest, hcons⟩ := List.exists_cons_of_ne_nil hart
  refine ⟨?_, ?_, ?_⟩
  · intro hmsg
    simp only [get_track_info, List.lookup, hmsg, hcons, album_artist_of]
    cases hstream : td.is_available_for_streaming with
    | false =>
      refine ⟨_, rfl, by simp, ?_, rfl, by simp [hcons]⟩
      intro hcon _
      simp at hcon
    | true =>
      cases hpre : td.preorder with
      | false =>
        refine ⟨_, rfl, by simp, ?_, rfl, by simp [hcons]⟩
        intro _ _
        simp
      | true =>
        refine ⟨_, rfl, by simp, ?_, rfl, by simp [hcons]⟩
        intro _ hcon
        simp at hcon
  · intro hstream
    cases haA : a.artists with
    | none =>
      simp only [get_track_info, List.lookup, album_artist_of, haA, hcons]
      exact ⟨_, rfl, by simp [hstream]⟩
    | some l =>
      cases l with
      | nil => exact absurd haA haa
      | cons x xs =>
        simp only [get_track_info, List.lookup, album_artist_of, haA, hcons]
        exact ⟨_, rfl, by simp [hstream]⟩
  · intro hstream hpre
    cases haA : a.artists with
    | none =>
      simp only [get_track_info, List.lookup, album_artist_of, haA, hcons]
      exact ⟨_, rfl, by simp [hstream, hpre]⟩
    | some l =>
      cases l with
      | nil => exact absurd haA haa
      | cons x xs =>
        simp only [get_track_info, List.lookup, album_artist_of, haA, hcons]
        exact ⟨_, rfl, by simp [hstream, hpre]⟩

/-- C5 witness: the concrete sample track with a territory-restricted release
fetch yields a record, not an exception, with the region-lock error message
and the name/artists populated. -/
theorem c5_territory_restriction_witness :
    sampleTrack.artists ≠ [] ∧
    listHasSub "Territory Restricted.".toList territoryMsg.toList = true ∧
    ∃ ti, (get_track_info ⟨[], []⟩ sampleTrack.id QualityEnum.HIGH 1400 sampleTrack
        (.connectionError territoryMsg)).1 = Except.ok ti ∧
      ti.error = some ("Album " ++ Nat.repr sampleTrack.release.id ++ " is region locked") ∧
      ti.name = "Darkside" ∧ ti.artists = ["Alpha 9"] := by
  have hart : sampleTrack.artists ≠ [] := by decide
  have haa : sampleAlbum.artists ≠ some [] := by decide
  have hmsg : listHasSub "Territory Restricted.".toList territoryMsg.toList = true := by decide
  have h := (c5_territory_restriction sampleTrack QualityEnum.HIGH 1400 territoryMsg
    sampleAlbum hart haa).1 hmsg
  obtain ⟨ti, hok, hsome, hreg, hname, hartists⟩ := h
  refine ⟨hart, hmsg, ti, hok, hreg rfl rfl, ?_, ?_⟩
  · rw [hname]
    rfl
  · rw [hartists]
    rfl

/-- C9: when the pre-populated raw-data cache contains the requested track id
and that track's release id, `get_track_info` issues zero track fetches and
zero release fetches, and its result does not depend on the network oracles
at all — so a second call with the identical cache returns the same record
and issues zero additional network calls. -/
theorem c9_cache_idempotence :
    ∀ (data : Cache) (track_id : Nat) (tier : QualityEnum) (cs : Nat)
      (nt nt2 : TrackData) (nr nr2 : ReleaseFetch) (td : TrackData),
      data.trackData.lookup track_id = some td →
      (data.releaseData.lookup td.release.id).isSome = true →
      (get_track_info data track_id tier cs nt nr).2.1 = 0 ∧
      (get_track_info data track_id tier cs nt nr).2.2 = 0 ∧
      get_track_info data track_id tier cs nt nr =
        get_track_info data track_id tier cs nt2 nr2 := by
  intro data track_id tier cs nt nt2 nr nr2 td h1 h2
  obtain ⟨a, ha⟩ := Option.isSome_iff_exists.mp h2
  refine ⟨?_, ?_, ?_⟩
  · simp only [get_track_info, h1, ha]
    cases album_artist_of (some a) with
    | error e => rfl
    | ok aa =>
      cases td.artists with
      | nil => rfl
      | cons a0 rest => rfl
  · simp only [get_track_info, h1, ha]
    cases album_artist_of (some a) with
    | error e => rfl
    | ok aa =>
      cases td.artists with
      | nil => rfl
      | cons a0 rest => rfl
  · simp only [get_track_info, h1, ha]

/-- C9 witness: with `sampleTrack` and its release pre-cached, the call makes
zero network fetches and is unchanged if the network oracles are poisoned. -/
theorem c9_cache_idempotence_witness :
    sampleCache.trackData.lookup 1 = some sampleTrack ∧
    (sampleCache.releaseData.lookup sampleTrack.release.id).isSome = true ∧
    (get_track_info sampleCache 1 QualityEnum.HIGH 1400 trackNoLength
      (.raiseOther (.otherError "no network"))).2.1 = 0 ∧
    (get_track_info sampleCache 1 QualityEnum.HIGH 1400 trackNoLength
      (.raiseOther (.otherError "no network"))).2.2 = 0 ∧
    get_track_info sampleCache 1 QualityEnum.HIGH 1400 trackNoLength
        (.raiseOther (.otherError "no network")) =
      get_track_info sampleCache 1 QualityEnum.HIGH 1400 sampleTrack
        (.connectionError "offline") := by
  have h1 : sampleCache.trackData.lookup 1 = some sampleTrack := by decide
  have h2 : (sampleCache.releaseData.lookup sampleTrack.release.id).isSome = true := by decide
  have h := c9_cache_idempotence sampleCache 1 QualityEnum.HIGH 1400 trackNoLength
    sampleTrack (.raiseOther (.otherError "no network")) (.connectionError "offline")
    sampleTrack h1 h2
  exact ⟨h1, h2, h.1, h.2.1, h.2.2⟩
